import Mathlib

/-!
Shallow embedding of the zaptunnel repository (a CLI that shares one local
file over a Cloudflare quick tunnel) and proofs about it.

Sources embedded here:
* src/utils.ts          : formatBytes
* src/server.ts         : FileServer (download route, start, stop, counter)
* src/tunnel.ts         : CloudflareTunnel (URL scraping, exit handler, stop)

Modelling conventions:
* JavaScript numbers are modelled as exact naturals / integers.  All byte
  counts in the claims are far below 2^53, where doubles are exact.  The
  transcendental computation Math.floor(Math.log(bytes) / Math.log(1024))
  is modelled as the exact floor of the base-1024 logarithm; the actual
  IEEE-double evaluation agrees with that exact floor at the exact powers
  of 1024 and everywhere up to 1024^5 - 4, but its rounding already
  reaches the quotient 5.0 at the last three naturals below 1024^5, so
  results about formatBytes are stated on the agreement region only
  (see unitIndex).
* toFixed(2) is modelled as exact round-half-up to hundredths, and
  parseFloat(...toFixed(2)) as decimal rendering with trailing zeros
  stripped, which is what it produces on these magnitudes.
* Asynchronous callbacks (route handlers, stream events, exit handlers)
  are modelled as pure functions over explicit state, sequenced in event
  arrival order: Node dispatches them on one event loop thread.
-/

/-! ## src/utils.ts : formatBytes -/

/-- Fuel-structured floor of the base-1024 logarithm.  The fuel argument
only makes the recursion structural; with fuel at least n the value is
the exact floor of log_1024 n, see logIdx_spec and unitIndex_eq_log. -/
def logIdx : Nat → Nat → Nat
  | 0, _ => 0
  | fuel + 1, n => if n < 1024 then 0 else logIdx fuel (n / 1024) + 1

/-- The unit index i computed by formatBytes:
Math.floor(Math.log(bytes) / Math.log(1024)), modelled as the exact
floor of the base-1024 logarithm.  This is not everywhere the program:
the IEEE-double quotient rounds to exactly 5.0 already at the last three
naturals below 1024^5, where the exact floor is still 4 (the margin of
fl(ln(2^50)) to its rounding midpoint is about a quarter ulp, and one
unit step in bytes moves ln by only an eighth of an ulp there).  At the
exact powers of 1024 and for every bytes up to 1024^5 - 4 the double
computation and this exact floor agree, and formatBytes results are
stated on that agreement region only. -/
def unitIndex (bytes : Nat) : Nat := logIdx bytes bytes

/-- The array lookup sizes[i] on sizes = ['B','KB','MB','GB','TB'].
Indexing past the end of a JavaScript array yields undefined, and the
template literal renders it as the string "undefined". -/
def unitName : Nat → String
  | 0 => "B"
  | 1 => "KB"
  | 2 => "MB"
  | 3 => "GB"
  | 4 => "TB"
  | _ => "undefined"

/-- Decimal rendering of n / 100 with at most two decimals, trailing
zeros stripped: the result of parseFloat(x.toFixed(2)) interpolated into
a template literal, where n = round(100 * x). -/
def renderFixed2 (n : Nat) : String :=
  let ip := n / 100
  let d := n % 100
  if d = 0 then toString ip
  else if d % 10 = 0 then toString ip ++ "." ++ toString (d / 10)
  else if d < 10 then toString ip ++ ".0" ++ toString d
  else toString ip ++ "." ++ toString d

/-- formatBytes from src/utils.ts.  The JavaScript source:
  if (bytes === 0) return '0 B';
  const i = Math.floor(Math.log(bytes) / Math.log(1024));
  return parseFloat((bytes / Math.pow(1024, i)).toFixed(2)) + ' ' + sizes[i];
Here (200 * bytes + p) / (2 * p) with p = 1024 ^ i is the natural-number
form of round-half-up of 100 * bytes / p. -/
def formatBytes (bytes : Nat) : String :=
  if bytes = 0 then "0 B"
  else
    renderFixed2 ((200 * bytes + 1024 ^ unitIndex bytes) / (2 * 1024 ^ unitIndex bytes))
      ++ " " ++ unitName (unitIndex bytes)

lemma logIdx_spec :
    ∀ fuel n : Nat, 1 ≤ n → n ≤ fuel →
      1024 ^ logIdx fuel n ≤ n ∧ n < 1024 ^ (logIdx fuel n + 1) := by
  intro fuel
  induction fuel with
  | zero => intro n h1 h2; omega
  | succ f ih =>
    intro n h1 h2
    by_cases hlt : n < 1024
    · simp only [logIdx, if_pos hlt]
      constructor
      · simpa using h1
      · simpa using hlt
    · have h1024 : 1024 ≤ n := by omega
      have hm1 : 1 ≤ n / 1024 := (Nat.one_le_div_iff (by omega)).mpr h1024
      have hm2 : n / 1024 ≤ f := by
        have : n / 1024 < n := Nat.div_lt_self (by omega) (by omega)
        omega
      obtain ⟨ha, hb⟩ := ih (n / 1024) hm1 hm2
      have heq : logIdx (f + 1) n = logIdx f (n / 1024) + 1 := by
        simp only [logIdx, if_neg hlt]
      rw [heq]
      constructor
      · calc 1024 ^ (logIdx f (n / 1024) + 1)
            = 1024 ^ logIdx f (n / 1024) * 1024 := pow_succ _ _
          _ ≤ (n / 1024) * 1024 := Nat.mul_le_mul_right _ ha
          _ ≤ n := Nat.div_mul_le_self n 1024
      · have hdm := Nat.div_add_mod n 1024
        have hmod : n % 1024 < 1024 := Nat.mod_lt _ (by omega)
        have hstep : n < 1024 * (n / 1024 + 1) := by omega
        have hmono : 1024 * (n / 1024 + 1) ≤ 1024 * 1024 ^ (logIdx f (n / 1024) + 1) :=
          Nat.mul_le_mul_left _ (by omega)
        have hpow : 1024 * 1024 ^ (logIdx f (n / 1024) + 1)
            = 1024 ^ (logIdx f (n / 1024) + 1 + 1) := by
          rw [pow_succ]; ring
        omega

lemma unitIndex_spec (bytes : Nat) (h : 1 ≤ bytes) :
    1024 ^ unitIndex bytes ≤ bytes ∧ bytes < 1024 ^ (unitIndex bytes + 1) :=
  logIdx_spec bytes bytes h (le_refl bytes)

/-- Sanity link: the fuel-structured index is the mathematical floor of
the base-1024 logarithm. -/
lemma unitIndex_eq_log (bytes : Nat) (h : 1 ≤ bytes) :
    unitIndex bytes = Nat.log 1024 bytes := by
  obtain ⟨ha, hb⟩ := unitIndex_spec bytes h
  exact (Nat.log_eq_of_pow_le_of_lt_pow ha hb).symm

lemma unitIndex_le_four (bytes : Nat) (h1 : 1 ≤ bytes) (h2 : bytes < 1024 ^ 5) :
    unitIndex bytes ≤ 4 := by
  obtain ⟨ha, _⟩ := unitIndex_spec bytes h1
  by_contra hcon
  have h5 : 5 ≤ unitIndex bytes := by omega
  have : (1024 : Nat) ^ 5 ≤ 1024 ^ unitIndex bytes :=
    Nat.pow_le_pow_right (by omega) h5
  omega

/-! ## src/server.ts : FileServer -/

/-- The shared file: display name (path.basename of the path) and its
bytes.  getFileInfo reports size = stats.size, which equals the byte
length of the content streamed by fs.createReadStream. -/
structure SharedFile where
  name : String
  content : List UInt8
deriving DecidableEq

/-- getFileInfo(...).size for the shared file. -/
def fileSize (f : SharedFile) : Nat := f.content.length

/-- Modelled: bcrypt.hashSync(password, 10).  The salted hash internals
are abstracted away; all that the server ever does with the hash is run
bcrypt.compare against it, and compare(p, hashSync(q)) succeeds exactly
when p = q, so the hash is represented by the plaintext it certifies. -/
def bcryptHash (password : String) : String := password

/-- Modelled: bcrypt.compare(password, hash), the constant-time-safe
verification; under the representation above it is string equality. -/
def bcryptCompare (password hash : String) : Bool := password == hash

/-- The constructor fragment
  if (options.password) { this.passwordHash = bcrypt.hashSync(options.password, 10); }
JavaScript truthiness: an absent option and the empty string are both
falsy, so neither installs a password hash. -/
def mkPasswordHash : Option String → Option String
  | none => none
  | some p => if p = "" then none else some (bcryptHash p)

/-- The per-instance configuration the /download route closes over. -/
structure ServerConfig where
  passwordHash : Option String
  file : SharedFile

/-- How the file read stream for one authorized request plays out:
the end event fires (completed), the error event fires (errored), or the
client goes away and the paused stream never finishes (aborted). -/
inductive StreamOutcome
  | completed
  | errored
  | aborted
deriving DecidableEq

/-- One GET /download request: the password query parameter
(req.query.password, absent or a string) and the fate of its stream. -/
structure Request where
  password : Option String
  streamOutcome : StreamOutcome
deriving DecidableEq

/-- The observable response of the /download route.  ok carries the
Content-Type and Content-Disposition headers, the Content-Length value
and the fully streamed body of a 200 response; truncated stands for a
stream the client abandoned before the end event. -/
inductive Response
  | ok (contentType : String) (contentDisposition : String)
      (contentLength : Nat) (body : List UInt8)
  | unauthorized (body : String)
  | serverError (body : String)
  | truncated
deriving DecidableEq

/-- The streaming tail of the /download handler, from createReadStream to
the stream event handlers.  The end handler runs this.downloadCount++;
the error handler emits downloadError and answers 500 without touching
the counter; an abandoned stream fires neither. -/
def streamFile (f : SharedFile) (outcome : StreamOutcome) (count : Nat) :
    Response × Nat :=
  match outcome with
  | .completed =>
      (.ok "application/octet-stream"
        ("attachment; filename=\"" ++ f.name ++ "\"")
        (fileSize f) f.content,
       count + 1)
  | .errored => (.serverError "Error downloading file", count)
  | .aborted => (.truncated, count)

/-- The GET /download route handler from FileServer.setupRoutes, with the
download counter threaded explicitly.  The guard `if (!password)` is
JavaScript truthiness again: it fires for an absent parameter and for an
empty-string parameter alike. -/
def handleDownload (cfg : ServerConfig) (req : Request) (count : Nat) :
    Response × Nat :=
  match cfg.passwordHash with
  | none => streamFile cfg.file req.streamOutcome count
  | some h =>
    match req.password with
    | none => (.unauthorized "Password required", count)
    | some p =>
      if p = "" then (.unauthorized "Password required", count)
      else if bcryptCompare p h then streamFile cfg.file req.streamOutcome count
      else (.unauthorized "Invalid password", count)

/-- True exactly for the completed 200 responses. -/
def isCompleted : Response → Bool
  | .ok _ _ _ _ => true
  | _ => false

/-- A FileServer lifetime: the requests arrive and run to their outcome
in event-loop order, each one updating the shared downloadCount field. -/
def runServer (cfg : ServerConfig) (count : Nat) :
    List Request → List Response × Nat
  | [] => ([], count)
  | r :: rs =>
    let step := handleDownload cfg r count
    let rest := runServer cfg step.2 rs
    (step.1 :: rest.1, rest.2)

namespace FileServer

/-- FileServer.getDownloadCount: returns the counter, no side effects. -/
def getDownloadCount (count : Nat) : Nat := count

/-- The this.server field: absent before start, otherwise a handle that
is or is not still listening. -/
structure ServerHandle where
  listening : Bool
deriving DecidableEq

/-- node's server.close(callback): stops a listening server; on a server
that is not listening it invokes the callback with an ERR_SERVER_NOT_RUNNING
error instead.  The pair is (error passed to the callback, handle after). -/
def closeHandle (h : ServerHandle) : Option String × ServerHandle :=
  if h.listening then (none, ⟨false⟩) else (some "ERR_SERVER_NOT_RUNNING", h)

/-- Outcome of the promise returned by FileServer.stop. -/
inductive StopOutcome
  | resolvedOk
  | rejectedErr (e : String)
deriving DecidableEq

/-- FileServer.stop: if this.server is set, calls close and resolves from
the callback — which ignores any close error — else resolves at once.
The server field is never cleared. -/
def stop : Option ServerHandle → StopOutcome × Option ServerHandle
  | none => (.resolvedOk, none)
  | some h => (.resolvedOk, some (closeHandle h).2)

/-- What one this.app.listen attempt at a given port does. -/
inductive BindOutcome
  | success
  | inUse
  | otherErr
deriving DecidableEq

/-- Outcome of the promise returned by FileServer.start.  unhandled marks
an error event fired on a server object that has no error listener: node
throws it as an uncaught exception and the promise never settles. -/
inductive StartResult
  | resolved (port : Nat)
  | rejected
  | unhandled
deriving DecidableEq

/-- FileServer.start.  The error listener is attached only to the first
server object; on EADDRINUSE it increments the port and calls listen
again, but attaches no listener to the new server object, so any error
from the second attempt is an unhandled error event. -/
def start (env : Nat → BindOutcome) (port : Nat) : StartResult :=
  match env port with
  | .success => .resolved port
  | .otherErr => .rejected
  | .inUse =>
    match env (port + 1) with
    | .success => .resolved (port + 1)
    | _ => .unhandled

/-- The start behavior as the spec words it: on a bind conflict, retry on
the next higher port, once per conflict, until a free port is found, then
resolve with the bound port; a non-conflict error rejects.  The fuel
argument bounds the search to keep the recursion structural. -/
def startAsSpecified (env : Nat → BindOutcome) : Nat → Nat → StartResult
  | 0, _ => .rejected
  | fuel + 1, port =>
    match env port with
    | .success => .resolved port
    | .otherErr => .rejected
    | .inUse => startAsSpecified env fuel (port + 1)

/-- Bind environment with every port free. -/
def freeEnv : Nat → BindOutcome := fun _ => .success

/-- Bind environment where only port 3000 is taken, as when one server
already listens there. -/
def oneBusyEnv : Nat → BindOutcome :=
  fun p => if p = 3000 then .inUse else .success

/-- Bind environment where ports 3000 and 3001 are both taken. -/
def twoBusyEnv : Nat → BindOutcome :=
  fun p => if p = 3000 ∨ p = 3001 then .inUse else .success

end FileServer

/-! ## src/tunnel.ts : CloudflareTunnel -/

/-- The character class [a-zA-Z0-9-] of the URL pattern. -/
def classChar (c : Char) : Bool := c.isAlpha || c.isDigit || c == '-'

/-- The literal head of the pattern. -/
def httpsLit : List Char := "https://".toList

/-- The literal tail of the pattern. -/
def domainLit : List Char := ".trycloudflare.com".toList

/-- Consumes an exact literal from the front of the input, returning the
remainder, or none when the input does not start with the literal. -/
def dropLit : List Char → List Char → Option (List Char)
  | [], rest => some rest
  | _ :: _, [] => none
  | a :: as, b :: bs => if a = b then dropLit as bs else none

/-- Tries the regex /https:\/\/[a-zA-Z0-9-]+\.trycloudflare\.com/ at the
start of the input and returns the matched characters.  The one-or-more
class run is taken greedily; since the dot that follows it is not a class
character, the greedy run is the only candidate, so no backtracking is
needed to agree with the regex engine. -/
def matchUrlAt (l : List Char) : Option (List Char) :=
  match dropLit httpsLit l with
  | none => none
  | some rest =>
    let run := rest.takeWhile classChar
    if run = [] then none
    else
      match dropLit domainLit (rest.dropWhile classChar) with
      | none => none
      | some _ => some (httpsLit ++ run ++ domainLit)

/-- Leftmost match: scans the start positions left to right, as
String.prototype.match does for an unanchored pattern. -/
def findUrlAux : List Char → Option (List Char)
  | [] => none
  | a :: rest =>
    match matchUrlAt (a :: rest) with
    | some m => some m
    | none => findUrlAux rest

/-- output.match(/https:\/\/[a-zA-Z0-9-]+\.trycloudflare\.com/) giving
the matched substring, or none. -/
def findUrl (output : String) : Option String :=
  (findUrlAux output.toList).map fun cs => String.mk cs

/-- The mutable fields of a CloudflareTunnel: this.process (modelled by
whether a live subprocess handle is held) and this.tunnelUrl. -/
structure TunnelState where
  process : Bool
  tunnelUrl : Option String
deriving DecidableEq

namespace CloudflareTunnel

/-- The parseForUrl closure inside CloudflareTunnel.start: on a match,
if no URL is stored yet, stores it (and resolves the start promise with
it); otherwise leaves the state alone.  It runs on every data chunk of
both stdout and stderr. -/
def parseForUrl (st : TunnelState) (output : String) : TunnelState :=
  match findUrl output with
  | none => st
  | some u =>
    if st.tunnelUrl = none then { process := st.process, tunnelUrl := some u }
    else st

/-- A sequence of data chunks arriving from the subprocess streams, fed
through parseForUrl in arrival order. -/
def processChunks (st : TunnelState) (chunks : List String) : TunnelState :=
  chunks.foldl parseForUrl st

/-- CloudflareTunnel.stop: if a process handle is held, kill it and reset
both the handle and the URL; otherwise do nothing. -/
def stop (st : TunnelState) : TunnelState :=
  if st.process then { process := false, tunnelUrl := none } else st

/-- Rendering of the exit code in the template literal: a number prints
its digits, null prints as the string "null". -/
def codeToString : Option Int → String
  | none => "null"
  | some n => toString n

/-- The exit listener inside CloudflareTunnel.start:
  if (code !== 0 && !this.tunnelUrl) reject(new Error(`cloudflared exited with code ...`));
Result is the rejection message, or none when the promise is not
rejected by this handler. -/
def onProcessExit (code : Option Int) (tunnelUrl : Option String)
    (stderr : String) : Option String :=
  if code ≠ some 0 ∧ tunnelUrl = none then
    some ("cloudflared exited with code " ++ codeToString code
      ++ (if stderr = "" then "" else ": " ++ stderr))
  else none

end CloudflareTunnel

/-! ## Helper lemmas -/

lemma handleDownload_count (cfg : ServerConfig) (r : Request) (c : Nat) :
    (handleDownload cfg r c).2
      = c + (if isCompleted (handleDownload cfg r c).1 then 1 else 0) := by
  rcases cfg with ⟨hash, f⟩
  rcases r with ⟨pw, so⟩
  cases hash with
  | none => cases so <;> simp [handleDownload, streamFile, isCompleted]
  | some h =>
    cases pw with
    | none => simp [handleDownload, isCompleted]
    | some p =>
      by_cases hp : p = ""
      · simp [handleDownload, hp, isCompleted]
      · by_cases hc : bcryptCompare p h
        · cases so <;> simp [handleDownload, hp, hc, streamFile, isCompleted]
        · simp [handleDownload, hp, hc, isCompleted]

lemma runServer_count (cfg : ServerConfig) (reqs : List Request) :
    ∀ c : Nat, (runServer cfg c reqs).2
      = c + ((runServer cfg c reqs).1.countP (fun r => isCompleted r)) := by
  induction reqs with
  | nil => intro c; simp [runServer]
  | cons r rs ih =>
    intro c
    simp only [runServer, List.countP_cons]
    rw [ih]
    have h := handleDownload_count cfg r c
    by_cases hic : isCompleted (handleDownload cfg r c).1 <;>
      simp only [hic, if_pos, if_neg, ite_true, ite_false] at h ⊢ <;> omega

lemma parseForUrl_of_set (st : TunnelState) (c : String) (u : String)
    (h : st.tunnelUrl = some u) : CloudflareTunnel.parseForUrl st c = st := by
  unfold CloudflareTunnel.parseForUrl
  cases hf : findUrl c
  · rfl
  · simp [h]

lemma processChunks_of_set (chunks : List String) :
    ∀ st u, st.tunnelUrl = some u →
      CloudflareTunnel.processChunks st chunks = st := by
  induction chunks with
  | nil => intro st u h; rfl
  | cons c cs ih =>
    intro st u h
    simp only [CloudflareTunnel.processChunks, List.foldl_cons]
    rw [parseForUrl_of_set st c u h]
    exact ih st u h

lemma processChunks_from_none (chunks : List String) :
    ∀ b : Bool, (CloudflareTunnel.processChunks ⟨b, none⟩ chunks).tunnelUrl
      = (chunks.filterMap findUrl).head? := by
  induction chunks with
  | nil => intro b; rfl
  | cons c cs ih =>
    intro b
    cases hf : findUrl c with
    | none =>
      have hp : CloudflareTunnel.parseForUrl ⟨b, none⟩ c = ⟨b, none⟩ := by
        simp [CloudflareTunnel.parseForUrl, hf]
      simp only [CloudflareTunnel.processChunks, List.foldl_cons, hp,
        List.filterMap_cons_none hf]
      exact ih b
    | some u =>
      have hp : CloudflareTunnel.parseForUrl ⟨b, none⟩ c = ⟨b, some u⟩ := by
        simp [CloudflareTunnel.parseForUrl, hf]
      simp only [CloudflareTunnel.processChunks, List.foldl_cons, hp,
        List.filterMap_cons_some hf]
      rw [show List.foldl CloudflareTunnel.parseForUrl ⟨b, some u⟩ cs
            = CloudflareTunnel.processChunks ⟨b, some u⟩ cs from rfl]
      rw [processChunks_of_set cs ⟨b, some u⟩ u rfl]
      rfl

lemma div_round_bounds (b p : Nat) (hp : 0 < p) :
    2 * p * ((200 * b + p) / (2 * p)) ≤ 200 * b + p
    ∧ 200 * b ≤ 2 * p * ((200 * b + p) / (2 * p)) + p := by
  have hdm := Nat.div_add_mod (200 * b + p) (2 * p)
  have hmod : (200 * b + p) % (2 * p) < 2 * p := Nat.mod_lt _ (by omega)
  generalize hP : 2 * p * ((200 * b + p) / (2 * p)) = P at hdm ⊢
  generalize hm : (200 * b + p) % (2 * p) = m at hdm hmod
  constructor <;> omega

lemma unitName_mem_of_le_four (i : Nat) (h : i ≤ 4) :
    unitName i ∈ (["B", "KB", "MB", "GB", "TB"] : List String) := by
  have hc : i = 0 ∨ i = 1 ∨ i = 2 ∨ i = 3 ∨ i = 4 := by omega
  rcases hc with h0 | h0 | h0 | h0 | h0 <;> rw [h0] <;> decide

/-! ## Claims -/

/-- C6 (amended): for every byte count B with 1 ≤ B ≤ 1024^5 - 4,
formatBytes renders B as a magnitude rounded to two decimals followed by
the binary unit selected as the largest one whose scaled value is at
least 1 (1024^i ≤ B < 1024^(i+1)), the magnitude times the unit factor
is within the half-hundredth rounding tolerance of B, formatBytes 0 is
"0 B", 1536 maps to "1.5 KB" and 1073741824 maps to "1 GB".  The
original claim quantified over every B ≥ 0; it fails at the top of the
unit table, where the array lookup is out of bounds and the unit renders
as the undefined placeholder (see the counterexample).  The range stops
at 1024^5 - 4 because for the last three naturals below 1024^5 the
IEEE-double unit-index computation of the program already yields 5 while
the exact floor modelled here is 4; on the stated range the two agree. -/
theorem formatBytes_correct_below_petabyte (B : Nat) (h1 : 1 ≤ B)
    (h2 : B + 3 < 1024 ^ 5) :
    formatBytes B
      = renderFixed2 ((200 * B + 1024 ^ unitIndex B) / (2 * 1024 ^ unitIndex B))
        ++ " " ++ unitName (unitIndex B)
    ∧ unitName (unitIndex B) ∈ (["B", "KB", "MB", "GB", "TB"] : List String)
    ∧ 1024 ^ unitIndex B ≤ B
    ∧ B < 1024 ^ unitIndex B * 1024
    ∧ 2 * 1024 ^ unitIndex B * ((200 * B + 1024 ^ unitIndex B) / (2 * 1024 ^ unitIndex B))
        ≤ 200 * B + 1024 ^ unitIndex B
    ∧ 200 * B
        ≤ 2 * 1024 ^ unitIndex B * ((200 * B + 1024 ^ unitIndex B) / (2 * 1024 ^ unitIndex B))
          + 1024 ^ unitIndex B
    ∧ formatBytes 0 = "0 B"
    ∧ formatBytes 1536 = "1.5 KB"
    ∧ formatBytes 1073741824 = "1 GB" := by
  have hB0 : ¬ B = 0 := by omega
  have h2p : B < 1024 ^ 5 := by omega
  obtain ⟨ha, hb⟩ := unitIndex_spec B h1
  have hle4 := unitIndex_le_four B h1 h2p
  have hpos : 0 < (1024 : Nat) ^ unitIndex B := pow_pos (by omega) _
  obtain ⟨hd1, hd2⟩ := div_round_bounds B (1024 ^ unitIndex B) hpos
  refine ⟨by simp only [formatBytes, if_neg hB0],
    unitName_mem_of_le_four _ hle4, ha, ?_, hd1, hd2, rfl, by decide, by decide⟩
  calc B < 1024 ^ (unitIndex B + 1) := hb
    _ = 1024 ^ unitIndex B * 1024 := pow_succ _ _

/-- C6 counterexample: at exactly one pebibyte the computed unit index is
5 — both in this exact model and in the IEEE-double computation, whose
quotient there is exactly 5.0 — past the end of the five-element unit
array, so the rendered string carries the undefined placeholder instead
of one of B/KB/MB/GB/TB.  (The double computation of the program in fact
renders the placeholder already at 1024^5 - 3; this exact model does not
track those three boundary inputs, which is why the amended range above
stops at 1024^5 - 4.) -/
theorem formatBytes_petabyte_counterexample :
    formatBytes (1024 ^ 5) = "1 undefined"
    ∧ "undefined" ∉ (["B", "KB", "MB", "GB", "TB"] : List String) := by
  constructor
  · decide
  · decide

/-- C6 witness: the amended theorem applied at B = 1536. -/
theorem formatBytes_correct_below_petabyte_witness :
    1024 ^ unitIndex 1536 ≤ 1536
    ∧ 1536 < 1024 ^ unitIndex 1536 * 1024
    ∧ formatBytes 1536 = "1.5 KB" :=
  ⟨(formatBytes_correct_below_petabyte 1536 (by decide) (by decide)).2.2.1,
   (formatBytes_correct_below_petabyte 1536 (by decide) (by decide)).2.2.2.1,
   (formatBytes_correct_below_petabyte 1536 (by decide)
      (by decide)).2.2.2.2.2.2.2.1⟩

/-- A small concrete shared file used to instantiate the claims. -/
def sampleFile : SharedFile := ⟨"hello.txt", [104, 105]⟩

/-- C1 counterexample: on a server protected with the password "secret",
a request that does supply a password, namely the empty string, is a
supplied-but-mismatching password, yet the response body is
"Password required", not the "Invalid password" body the claim assigns
to every supplied mismatching password. -/
theorem download_empty_password_counterexample :
    (handleDownload ⟨mkPasswordHash (some "secret"), sampleFile⟩
        ⟨some "", .completed⟩ 0).1 = .unauthorized "Password required"
    ∧ (handleDownload ⟨mkPasswordHash (some "secret"), sampleFile⟩
        ⟨some "", .completed⟩ 0).1 ≠ .unauthorized "Invalid password" := by
  constructor
  · decide
  · decide

/-- C1 (amended): on a server configured with a nonempty password, an
absent password parameter and an empty-string password parameter both
yield 401 with body "Password required"; a supplied nonempty password
that does not match yields 401 with body "Invalid password"; the
matching password proceeds to the 200 response streaming the file.
(A configured empty-string password installs no protection at all,
see the C8 theorems.) -/
theorem download_password_gating (pw : String) (hpw : pw ≠ "")
    (f : SharedFile) (so : StreamOutcome) (c : Nat) :
    (handleDownload ⟨mkPasswordHash (some pw), f⟩ ⟨none, so⟩ c).1
        = .unauthorized "Password required"
    ∧ (handleDownload ⟨mkPasswordHash (some pw), f⟩ ⟨some "", so⟩ c).1
        = .unauthorized "Password required"
    ∧ (∀ p : String, p ≠ "" → p ≠ pw →
        (handleDownload ⟨mkPasswordHash (some pw), f⟩ ⟨some p, so⟩ c).1
          = .unauthorized "Invalid password")
    ∧ (handleDownload ⟨mkPasswordHash (some pw), f⟩ ⟨some pw, .completed⟩ c).1
        = .ok "application/octet-stream"
            ("attachment; filename=\"" ++ f.name ++ "\"")
            (fileSize f) f.content := by
  have hmk : mkPasswordHash (some pw) = some (bcryptHash pw) := by
    simp [mkPasswordHash, hpw]
  refine ⟨?_, ?_, ?_, ?_⟩
  · simp [handleDownload, hmk]
  · simp [handleDownload, hmk]
  · intro p hp hne
    simp [handleDownload, hmk, hp, bcryptCompare, bcryptHash, hne]
  · simp [handleDownload, hmk, hpw, bcryptCompare, bcryptHash, streamFile]

/-- C1 witness: the amended theorem at the password "secret" with the
sample file. -/
theorem download_password_gating_witness :
    (handleDownload ⟨mkPasswordHash (some "secret"), sampleFile⟩
        ⟨none, .completed⟩ 0).1 = .unauthorized "Password required"
    ∧ (handleDownload ⟨mkPasswordHash (some "secret"), sampleFile⟩
        ⟨some "wrong", .completed⟩ 0).1 = .unauthorized "Invalid password"
    ∧ (handleDownload ⟨mkPasswordHash (some "secret"), sampleFile⟩
        ⟨some "secret", .completed⟩ 0).1
        = .ok "application/octet-stream"
            ("attachment; filename=\"" ++ sampleFile.name ++ "\"")
            (fileSize sampleFile) sampleFile.content :=
  ⟨(download_password_gating "secret" (by decide) sampleFile .completed 0).1,
   (download_password_gating "secret" (by decide) sampleFile .completed 0).2.2.1
      "wrong" (by decide) (by decide),
   (download_password_gating "secret" (by decide) sampleFile .completed 0).2.2.2⟩

/-- C7: on a server with no password configured, a request whose stream
runs to completion gets the 200 response with the binary content type,
the attachment disposition naming the file, Content-Length equal to the
exact byte size of the file, and a body that is byte-for-byte the file
content. -/
theorem download_unprotected_roundtrip (f : SharedFile) (q : Option String)
    (c : Nat) :
    (handleDownload ⟨mkPasswordHash none, f⟩ ⟨q, .completed⟩ c).1
      = .ok "application/octet-stream"
          ("attachment; filename=\"" ++ f.name ++ "\"")
          (fileSize f) f.content
    ∧ fileSize f = f.content.length :=
  ⟨rfl, rfl⟩

/-- C8 counterexample: configuring the server with the empty-string
password installs no password hash at all, so the request carrying an
empty password parameter is served the file with 200 instead of the 401
"Password required" response the claim asserts. -/
theorem empty_password_unprotected_counterexample :
    mkPasswordHash (some "") = none
    ∧ (handleDownload ⟨mkPasswordHash (some ""), sampleFile⟩
        ⟨some "", .completed⟩ 0).1
      = .ok "application/octet-stream"
          ("attachment; filename=\"" ++ sampleFile.name ++ "\"")
          (fileSize sampleFile) sampleFile.content
    ∧ (handleDownload ⟨mkPasswordHash (some ""), sampleFile⟩
        ⟨some "", .completed⟩ 0).1 ≠ .unauthorized "Password required" := by
  refine ⟨rfl, rfl, ?_⟩
  decide

/-- C8 (amended): on a server protected with a nonempty password, an
empty-string password parameter is treated like a missing one and gets
the 401 "Password required" response; but a protecting password that is
itself the empty string is dropped by the constructor truthiness check,
so such a server is unprotected and never answers 401. -/
theorem password_presence_distinction (pw : String) (hpw : pw ≠ "")
    (f : SharedFile) (so : StreamOutcome) (c : Nat) (q : Option String) :
    (handleDownload ⟨mkPasswordHash (some pw), f⟩ ⟨some "", so⟩ c).1
        = .unauthorized "Password required"
    ∧ mkPasswordHash (some "") = none
    ∧ (∀ m : String,
        (handleDownload ⟨mkPasswordHash (some ""), f⟩ ⟨q, so⟩ c).1
          ≠ .unauthorized m) := by
  have hmk : mkPasswordHash (some pw) = some (bcryptHash pw) := by
    simp [mkPasswordHash, hpw]
  refine ⟨by simp [handleDownload, hmk], rfl, ?_⟩
  intro m
  show (streamFile f so c).1 ≠ _
  cases so <;> simp [streamFile]

/-- C8 witness: the amended theorem at the password "secret" and at the
empty configured password, with the sample file. -/
theorem password_presence_distinction_witness :
    (handleDownload ⟨mkPasswordHash (some "secret"), sampleFile⟩
        ⟨some "", .completed⟩ 0).1 = .unauthorized "Password required"
    ∧ mkPasswordHash (some "") = none
    ∧ (handleDownload ⟨mkPasswordHash (some ""), sampleFile⟩
        ⟨some "", .completed⟩ 0).1 ≠ .unauthorized "Password required" :=
  ⟨(password_presence_distinction "secret" (by decide) sampleFile
      .completed 0 (some "")).1,
   (password_presence_distinction "secret" (by decide) sampleFile
      .completed 0 (some "")).2.1,
   (password_presence_distinction "secret" (by decide) sampleFile
      .completed 0 (some "")).2.2 "Password required"⟩

/-- C2: over any sequence of download requests processed in event order,
the value getDownloadCount reports equals the number of completed 200
responses: the end handler increments once per fully streamed download,
and 401 responses, 500 responses and abandoned streams never touch the
counter. -/
theorem downloadCount_eq_completed (cfg : ServerConfig) (reqs : List Request) :
    FileServer.getDownloadCount (runServer cfg 0 reqs).2
      = (runServer cfg 0 reqs).1.countP (fun r => isCompleted r) := by
  have h := runServer_count cfg reqs 0
  simpa [FileServer.getDownloadCount] using h

/-- C9: FileServer.stop always resolves without error: on a server that
was never started it resolves at once and changes nothing, and a second
stop after a previous stop also resolves, because the close callback
ignores the ERR_SERVER_NOT_RUNNING error a double close reports. -/
theorem stop_idempotent (s : Option FileServer.ServerHandle) :
    (FileServer.stop s).1 = FileServer.StopOutcome.resolvedOk
    ∧ (FileServer.stop (FileServer.stop s).2).1
        = FileServer.StopOutcome.resolvedOk
    ∧ FileServer.stop none = (FileServer.StopOutcome.resolvedOk, none) := by
  rcases s with _ | h
  · exact ⟨rfl, rfl, rfl⟩
  · exact ⟨rfl, rfl, rfl⟩

/-- C3 counterexample: with ports 3000 and 3001 both taken and 3002 free,
the spec-worded retry loop would resolve with 3002, but the actual start
attaches no error listener to the second server object, so the second
EADDRINUSE is an unhandled error event and the promise never resolves. -/
theorem start_double_conflict_counterexample :
    FileServer.startAsSpecified FileServer.twoBusyEnv 10 3000
        = FileServer.StartResult.resolved 3002
    ∧ FileServer.start FileServer.twoBusyEnv 3000
        = FileServer.StartResult.unhandled
    ∧ FileServer.StartResult.unhandled ≠ FileServer.StartResult.resolved 3002 := by
  refine ⟨?_, ?_, ?_⟩ <;> decide

/-- C3 (amended): start retries at most once.  A free requested port
resolves with that port; a non-conflict error on the first bind rejects;
a conflict followed by a successful bind of the next port resolves with
that next port (so a second server started on a port bound by a first
one does bind the next integer port); but a conflict followed by any
failure of the second bind is an unhandled error event, not a further
retry and not a rejection. -/
theorem start_single_retry (env : Nat → FileServer.BindOutcome) (port : Nat) :
    (env port = .success → FileServer.start env port = .resolved port)
    ∧ (env port = .otherErr → FileServer.start env port = .rejected)
    ∧ (env port = .inUse → env (port + 1) = .success →
        FileServer.start env port = .resolved (port + 1))
    ∧ (env port = .inUse → env (port + 1) ≠ .success →
        FileServer.start env port = .unhandled) := by
  refine ⟨?_, ?_, ?_, ?_⟩
  · intro h; simp [FileServer.start, h]
  · intro h; simp [FileServer.start, h]
  · intro h h2; simp [FileServer.start, h, h2]
  · intro h h2
    cases h3 : env (port + 1) with
    | success => exact absurd h3 h2
    | inUse => simp [FileServer.start, h, h3]
    | otherErr => simp [FileServer.start, h, h3]

/-- C3 witness: the amended theorem applied to an all-free environment
and to an environment where only the requested port is taken. -/
theorem start_single_retry_witness :
    FileServer.start FileServer.freeEnv 3000
        = FileServer.StartResult.resolved 3000
    ∧ FileServer.start FileServer.oneBusyEnv 3000
        = FileServer.StartResult.resolved 3001 :=
  ⟨(start_single_retry FileServer.freeEnv 3000).1 rfl,
   (start_single_retry FileServer.oneBusyEnv 3000).2.2.1 (by decide) (by decide)⟩

/-- C4 counterexample: a subprocess exit with code 0 before any URL was
observed does not reject the start promise at all — the exit handler
only fires its rejection for a nonzero (or null) code — contradicting
the claim that every exit before URL acquisition rejects with an error
naming the exit code. -/
theorem tunnel_exit_zero_counterexample :
    CloudflareTunnel.onProcessExit (some 0) none "some diagnostics" = none := by
  decide

/-- C4 (amended): when the subprocess exits with a code other than 0
(including the null code of a signal death) before a URL was observed,
start rejects with a message carrying the exit code and, when nonempty,
the captured stderr text; an exit with code 0 before a URL does not
reject here (the 30-second timeout handles it later), and no exit after
the URL was observed rejects. -/
theorem tunnel_exit_rejection (c : Option Int) (d : String) (u : String)
    (h : c ≠ some 0) :
    CloudflareTunnel.onProcessExit c none d
        = some ("cloudflared exited with code " ++ CloudflareTunnel.codeToString c
            ++ (if d = "" then "" else ": " ++ d))
    ∧ CloudflareTunnel.onProcessExit (some 0) none d = none
    ∧ CloudflareTunnel.onProcessExit c (some u) d = none := by
  refine ⟨?_, ?_, ?_⟩
  · simp [CloudflareTunnel.onProcessExit, h]
  · simp [CloudflareTunnel.onProcessExit]
  · simp [CloudflareTunnel.onProcessExit]

/-- C4 witness: the amended theorem at exit code 1 with captured stderr. -/
theorem tunnel_exit_rejection_witness :
    CloudflareTunnel.onProcessExit (some 1) none "connection refused"
        = some ("cloudflared exited with code "
            ++ CloudflareTunnel.codeToString (some 1)
            ++ (if ("connection refused" : String) = "" then ""
                else ": " ++ "connection refused"))
    ∧ CloudflareTunnel.onProcessExit (some 0) none "connection refused" = none :=
  ⟨(tunnel_exit_rejection (some 1) "connection refused" "u" (by decide)).1,
   (tunnel_exit_rejection (some 1) "connection refused" "u" (by decide)).2.1⟩

/-- C5: over any sequence of stdout/stderr chunks, the stored tunnel URL
is exactly the first match found in chunk arrival order (none when no
chunk matches) — so the first match resolves start and all later matches
are ignored; a state that already holds a URL is never reassigned by
further chunks; and stop on a live process resets both the process
handle and the URL. -/
theorem tunnel_first_url_honored (chunks : List String) (b : Bool) (u : String) :
    ((CloudflareTunnel.processChunks ⟨b, none⟩ chunks).tunnelUrl
        = (chunks.filterMap findUrl).head?)
    ∧ ((CloudflareTunnel.processChunks ⟨b, some u⟩ chunks).tunnelUrl = some u)
    ∧ CloudflareTunnel.stop ⟨true, some u⟩ = ⟨false, none⟩
    ∧ CloudflareTunnel.stop ⟨true, none⟩ = ⟨false, none⟩ := by
  refine ⟨processChunks_from_none chunks b, ?_, rfl, rfl⟩
  rw [processChunks_of_set chunks ⟨b, some u⟩ u rfl]
